import Mathlib

/-!
Verification development for the control-plane config render controller
(`RenderConfigsStaticPodController` and its converter functions in package `k8s`).

The Go source is shallowly embedded: generic `map[string]interface{}` payloads
become association lists over a JSON-like `Value` type, the controller's single
reconciliation iteration becomes the pure function `runIteration` over an
explicit store state, and filesystem / stdout / status side effects are
recorded in the returned `IterationResult`.
-/

namespace K8s

/-- JSON-like generic value, modelling Go `interface{}` payload values as they
occur in configuration payloads (strings, numbers, booleans, null, arrays,
nested objects). -/
inductive Value where
  | str (s : String)
  | num (n : Int)
  | bool (b : Bool)
  | null
  | arr (items : List Value)
  | obj (fields : List (String × Value))
deriving Repr

mutual

/-- Model of `json.Marshal` on JSON-representable values: a deterministic
JSON text encoding. On the payload values representable by `Value`
(which is exactly what a generic configuration payload can hold),
Go's `json.Marshal` never fails, so the model is total. -/
def jsonEncode : Value → String
  | .str s => "\x22" ++ s ++ "\x22"
  | .num n => toString n
  | .bool b => if b then "true" else "false"
  | .null => "null"
  | .arr items => "[" ++ jsonEncodeList items ++ "]"
  | .obj fields => "\x7b" ++ jsonEncodeFields fields ++ "\x7d"

/-- JSON encoding of a list of values (array elements). -/
def jsonEncodeList : List Value → String
  | [] => ""
  | [v] => jsonEncode v
  | v :: rest => jsonEncode v ++ "," ++ jsonEncodeList rest

/-- JSON encoding of the key/value fields of an object. -/
def jsonEncodeFields : List (String × Value) → String
  | [] => ""
  | [(k, v)] => "\x22" ++ k ++ "\x22:" ++ jsonEncode v
  | (k, v) :: rest => "\x22" ++ k ++ "\x22:" ++ jsonEncode v ++ "," ++ jsonEncodeFields rest

end

/-! ## Upstream resource specs (package `k8s` resource types) -/

/-- One named admission plugin sub-payload
(Go `k8s.AdmissionPluginSpec`: `Name string`, `Configuration map[string]interface{}`). -/
structure AdmissionPluginSpec where
  name : String
  configuration : List (String × Value)
deriving Repr

/-- Go `k8s.AdmissionControlConfigSpec`: a list of named plugin sub-payloads. -/
structure AdmissionControlConfigSpec where
  Config : List AdmissionPluginSpec
deriving Repr

/-- Go `k8s.AuditPolicyConfigSpec`: an opaque generic payload. -/
structure AuditPolicyConfigSpec where
  Config : List (String × Value)
deriving Repr

/-- Go `k8s.StructuredAuthenticationConfigSpec` (src/pkg/machinery/resources/k8s):
`Config map[string]any`. -/
structure StructuredAuthenticationConfigSpec where
  Config : List (String × Value)
deriving Repr

/-- Go `k8s.StructuredAuthorizationConfigSpec` (src/pkg/machinery/resources/k8s):
`Config map[string]any`. -/
structure StructuredAuthorizationConfigSpec where
  Config : List (String × Value)
deriving Repr

/-- Go `k8s.SchedulerConfigSpec`: an opaque generic payload. -/
structure SchedulerConfigSpec where
  Config : List (String × Value)
deriving Repr

/-- A stored resource: its typed spec plus the store-assigned version token
(`res.Metadata().Version().String()`). -/
structure Resource (α : Type) where
  spec : α
  version : String
deriving Repr

/-- Go `k8s.ConfigStatusSpec` as written by the controller: `Ready` and `Version`. -/
structure ConfigStatusSpec where
  Ready : Bool
  Version : String
deriving Repr, DecidableEq

/-- Resource-store state visible to one controller iteration: the five upstream
singletons (each present or absent) and the current Config Status singleton. -/
structure StoreState where
  admission : Option (Resource AdmissionControlConfigSpec)
  audit : Option (Resource AuditPolicyConfigSpec)
  structuredAuthN : Option (Resource StructuredAuthenticationConfigSpec)
  structuredAuthZ : Option (Resource StructuredAuthorizationConfigSpec)
  scheduler : Option (Resource SchedulerConfigSpec)
  configStatus : Option ConfigStatusSpec
deriving Repr

/-! ## Target documents and converters -/

/-- Schema field set of `auditv1.Policy` (external k8s library type), modelling
the JSON field names its struct accepts: the embedded TypeMeta pair plus the
policy fields. -/
def auditPolicyKnownFields : List String :=
  ["kind", "apiVersion", "metadata", "rules", "omitStages", "omitManagedFields"]

/-- Schema field set of `apiserverv1beta1.AuthenticationConfiguration`. -/
def authenticationKnownFields : List String :=
  ["kind", "apiVersion", "jwt", "anonymous"]

/-- Schema field set of `apiserverv1beta1.AuthorizationConfiguration`. -/
def authorizationKnownFields : List String :=
  ["kind", "apiVersion", "authorizers"]

/-- Schema field set of `schedulerv1.KubeSchedulerConfiguration`. -/
def kubeSchedulerKnownFields : List String :=
  ["kind", "apiVersion", "parallelism", "leaderElection", "clientConnection",
   "healthzBindAddress", "metricsBindAddress", "profiles", "extenders",
   "delayCacheUntilActive", "percentageOfNodesToScore", "podInitialBackoffSeconds",
   "podMaxBackoffSeconds"]

/-- Model of `runtime.DefaultUnstructuredConverter.FromUnstructuredWithValidation`
restricted to what the controller relies on: with `returnUnknownFields = true`
(strict) any payload key outside the target type's field set is an error;
otherwise unknown keys are silently dropped and the known fields populate the
typed object. (Per-field type mismatches of the external library are not
modelled; no claim depends on them.) -/
def fromUnstructuredWithValidation (knownFields : List String)
    (payload : List (String × Value)) (returnUnknownFields : Bool) :
    Except String (List (String × Value)) :=
  if returnUnknownFields && payload.any (fun kv => !(knownFields.contains kv.fst)) then
    Except.error "unknown field"
  else
    Except.ok (payload.filter (fun kv => knownFields.contains kv.fst))

/-- Read a string-valued field out of a populated field list (empty when absent),
modelling a string struct field left at its zero value when the payload did not
set it. -/
def getString (fields : List (String × Value)) (key : String) : String :=
  match fields.lookup key with
  | some (Value.str s) => s
  | _ => ""

/-- Read an object-valued field out of a populated field list (empty when absent). -/
def getObj (fields : List (String × Value)) (key : String) : List (String × Value) :=
  match fields.lookup key with
  | some (Value.obj o) => o
  | _ => []

/-- Drop the TypeMeta discriminator keys from a populated field list; the
discriminator pair is carried in the typed document's dedicated fields. -/
def stripMeta (fields : List (String × Value)) : List (String × Value) :=
  fields.filter fun kv => kv.fst != "apiVersion" && kv.fst != "kind"

/-- One entry of `apiserverv1.AdmissionConfiguration.Plugins`: the plugin name and
the re-encoded opaque blob (`runtime.Unknown.Raw`, held here as the JSON text). -/
structure AdmissionPluginConfiguration where
  name : String
  configuration : String
deriving Repr, DecidableEq

/-- Target document `apiserverv1.AdmissionConfiguration`. `plugins` is an
Option to model the Go slice's nil (absent) versus empty (present) distinction. -/
structure AdmissionConfiguration where
  apiVersion : String
  kind : String
  plugins : Option (List AdmissionPluginConfiguration)
deriving Repr, DecidableEq

/-- Target document `auditv1.Policy`: the TypeMeta pair plus the populated
schema fields. -/
structure Policy where
  apiVersion : String
  kind : String
  fields : List (String × Value)
deriving Repr

/-- Target document `apiserverv1beta1.AuthenticationConfiguration`. -/
structure AuthenticationConfiguration where
  apiVersion : String
  kind : String
  fields : List (String × Value)
deriving Repr

/-- Target document `apiserverv1beta1.AuthorizationConfiguration`. -/
structure AuthorizationConfiguration where
  apiVersion : String
  kind : String
  fields : List (String × Value)
deriving Repr

/-- Client-connection section of the scheduler document
(`componentbaseconfig.ClientConnectionConfiguration`): the kubeconfig path plus
its remaining fields. -/
structure ClientConnectionConfiguration where
  kubeconfig : String
  fields : List (String × Value)
deriving Repr

/-- Target document `schedulerv1.KubeSchedulerConfiguration`. -/
structure KubeSchedulerConfiguration where
  apiVersion : String
  kind : String
  clientConnection : ClientConnectionConfiguration
  fields : List (String × Value)
deriving Repr

/-! ## Fixed constants

The `constants` package of the repository is not under src. The spec leaves the
directories, ownership ids and the scheduler secrets dir abstract ("fixed
controller-determined" values D1, D2, U1/G1, U2/G2), so representative fixed
literals are used; no claim depends on the literal text. -/

/-- Modelled from the spec: `constants.KubernetesAPIServerConfigDir`, the fixed
API-server config directory (D1). -/
def kubernetesAPIServerConfigDir : String := "/system/config/kubernetes/kube-apiserver"

/-- Modelled from the spec: `constants.KubernetesSchedulerConfigDir`, the fixed
scheduler config directory (D2). -/
def kubernetesSchedulerConfigDir : String := "/system/config/kubernetes/kube-scheduler"

/-- Modelled from the spec: `constants.KubernetesSchedulerSecretsDir`, the fixed
directory holding the scheduler kubeconfig credential. -/
def kubernetesSchedulerSecretsDir : String := "/system/secrets/kubernetes/kube-scheduler"

/-- Modelled from the spec: `constants.KubernetesAPIServerRunUser` (U1). -/
def kubernetesAPIServerRunUser : Nat := 65534

/-- Modelled from the spec: `constants.KubernetesAPIServerRunGroup` (G1). -/
def kubernetesAPIServerRunGroup : Nat := 65534

/-- Modelled from the spec: `constants.KubernetesSchedulerRunUser` (U2). -/
def kubernetesSchedulerRunUser : Nat := 65534

/-- Modelled from the spec: `constants.KubernetesSchedulerRunGroup` (G2). -/
def kubernetesSchedulerRunGroup : Nat := 65534

/-! ## Converters (source lines 256-342) -/

/-- Embedding of `admissionControlConfig` (source lines 256-282): stamps the
discriminator pair, starts from an empty (non-nil) plugin slice and appends one
re-encoded entry per input plugin in input order. The `json.Marshal` error
branch is unreachable in the model because the encoding of `Value` payloads is
total. -/
def admissionControlConfig (spec : AdmissionControlConfigSpec) :
    Except String AdmissionConfiguration :=
  Except.ok
    { apiVersion := "apiserver.config.k8s.io/v1"
      kind := "AdmissionConfiguration"
      plugins := some (spec.Config.map fun plugin =>
        { name := plugin.name
          configuration := jsonEncode (Value.obj plugin.configuration) }) }

/-- Embedding of `auditPolicyConfig` (source lines 284-294): strict conversion
of the payload into `auditv1.Policy`; the discriminator pair is NOT stamped, the
document carries whatever the payload put into the TypeMeta fields. -/
def auditPolicyConfig (spec : AuditPolicyConfigSpec) : Except String Policy :=
  match fromUnstructuredWithValidation auditPolicyKnownFields spec.Config true with
  | Except.error e =>
      Except.error ("error unmarshaling audit policy configuration: " ++ e)
  | Except.ok fields =>
      Except.ok { apiVersion := getString fields "apiVersion"
                  kind := getString fields "kind"
                  fields := stripMeta fields }

/-- Embedding of `structuredAuthenticationConfig` (source lines 296-311): the
function first executes `fmt.Println(spec.Config)` — modelled as the payload
appearing in the returned stdout trace — then strictly converts the payload and
overwrites the discriminator pair with the fixed values. -/
def structuredAuthenticationConfig (spec : StructuredAuthenticationConfigSpec) :
    List (List (String × Value)) × Except String AuthenticationConfiguration :=
  ([spec.Config],
   match fromUnstructuredWithValidation authenticationKnownFields spec.Config true with
   | Except.error e =>
       Except.error ("error unmarshaling structured authentication configuration: " ++ e)
   | Except.ok fields =>
       let cfg : AuthenticationConfiguration :=
         { apiVersion := getString fields "apiVersion"
           kind := getString fields "kind"
           fields := stripMeta fields }
       Except.ok { cfg with
                   apiVersion := "apiserver.config.k8s.io/v1beta1"
                   kind := "AuthenticationConfiguration" })

/-- Embedding of `structuredAuthorizationConfig` (source lines 313-326): strict
conversion, then the discriminator pair is overwritten with the fixed values. -/
def structuredAuthorizationConfig (spec : StructuredAuthorizationConfigSpec) :
    Except String AuthorizationConfiguration :=
  match fromUnstructuredWithValidation authorizationKnownFields spec.Config true with
  | Except.error e =>
      Except.error ("error unmarshaling structured authorization configuration: " ++ e)
  | Except.ok fields =>
      let cfg : AuthorizationConfiguration :=
        { apiVersion := getString fields "apiVersion"
          kind := getString fields "kind"
          fields := stripMeta fields }
      Except.ok { cfg with
                  apiVersion := "apiserver.config.k8s.io/v1beta1"
                  kind := "AuthorizationConfiguration" }

/-- Embedding of `schedulerConfig` (source lines 328-342): NON-strict conversion
(the source passes `false` for `returnUnknownFields`), then the discriminator
pair and the client-connection kubeconfig path are overwritten with the fixed
controller-determined values. -/
def schedulerConfig (spec : SchedulerConfigSpec) :
    Except String KubeSchedulerConfiguration :=
  match fromUnstructuredWithValidation kubeSchedulerKnownFields spec.Config false with
  | Except.error e =>
      Except.error ("error unmarshaling scheduler configuration: " ++ e)
  | Except.ok fields =>
      let cc := getObj fields "clientConnection"
      let cfg : KubeSchedulerConfiguration :=
        { apiVersion := getString fields "apiVersion"
          kind := getString fields "kind"
          clientConnection :=
            { kubeconfig := getString cc "kubeconfig"
              fields := cc.filter fun kv => kv.fst != "kubeconfig" }
          fields := (stripMeta fields).filter fun kv => kv.fst != "clientConnection" }
      Except.ok { cfg with
                  apiVersion := "kubescheduler.config.k8s.io/v1"
                  kind := "KubeSchedulerConfiguration"
                  clientConnection :=
                    { cfg.clientConnection with
                      kubeconfig := kubernetesSchedulerSecretsDir ++ "/kubeconfig" } }

/-! ## Serialization (source lines 170-177, 227-231) -/

/-- Sum of the five target document types, modelling `runtime.Object` as the
controller uses it. -/
inductive RuntimeObject where
  | admission (cfg : AdmissionConfiguration)
  | audit (cfg : Policy)
  | authentication (cfg : AuthenticationConfiguration)
  | authorization (cfg : AuthorizationConfiguration)
  | scheduler (cfg : KubeSchedulerConfiguration)
deriving Repr

/-- Canonical value of an `AdmissionConfiguration`: the discriminator pair and
the plugins field (null for a nil slice, an array for a present slice). -/
def admissionToValue (cfg : AdmissionConfiguration) : Value :=
  Value.obj
    [("apiVersion", Value.str cfg.apiVersion),
     ("kind", Value.str cfg.kind),
     ("plugins",
      match cfg.plugins with
      | none => Value.null
      | some ps => Value.arr (ps.map fun p =>
          Value.obj [("name", Value.str p.name), ("configuration", Value.str p.configuration)]))]

/-- Canonical value of a typed document given its discriminator pair and
populated schema fields. -/
def typedToValue (apiVersion kind : String) (fields : List (String × Value)) : Value :=
  Value.obj (("apiVersion", Value.str apiVersion) :: ("kind", Value.str kind) :: fields)

/-- Canonical value of any target document. -/
def objectToValue : RuntimeObject → Value
  | .admission cfg => admissionToValue cfg
  | .audit cfg => typedToValue cfg.apiVersion cfg.kind cfg.fields
  | .authentication cfg => typedToValue cfg.apiVersion cfg.kind cfg.fields
  | .authorization cfg => typedToValue cfg.apiVersion cfg.kind cfg.fields
  | .scheduler cfg =>
      typedToValue cfg.apiVersion cfg.kind
        (cfg.fields ++
          [("clientConnection",
            Value.obj (("kubeconfig", Value.str cfg.clientConnection.kubeconfig) ::
              cfg.clientConnection.fields))])

/-- Model of the strict pretty-YAML serializer (source lines 170-177): a
deterministic textual encoding of the typed document. Encoding a well-formed
typed document never fails, so the source's marshal-error branch is
unreachable in the model. -/
def serializeObject (obj : RuntimeObject) : String :=
  jsonEncode (objectToValue obj)

/-! ## One reconciliation iteration (source `Run`, lines 82-254) -/

/-- One rendered file: directory, fixed filename, serialized content, the
permission mode passed to `os.WriteFile`, and the ownership applied by
`os.Chown`. -/
structure WrittenFile where
  directory : String
  filename : String
  content : String
  mode : Nat
  uid : Nat
  gid : Nat
deriving Repr, DecidableEq

/-- How one iteration of the loop body ended: `skipped` models `continue` on a
not-found resource, `failed` models `return err` (fatal), `completed` models
reaching `ResetRestartBackoff`. -/
inductive IterationOutcome where
  | skipped
  | failed (msg : String)
  | completed
deriving Repr, DecidableEq

/-- Observable record of one iteration: outcome, directories created (path and
`os.MkdirAll` mode), files written in order, payloads printed to stdout, and
the Config Status singleton after the iteration. -/
structure IterationResult where
  outcome : IterationOutcome
  dirsCreated : List (String × Nat)
  filesWritten : List WrittenFile
  stdout : List (List (String × Value))
  configStatus : Option ConfigStatusSpec
deriving Repr

/-- One entry of the per-pod `configs` slice (source type `configFile`): the
fixed filename plus the outcome of invoking the generation closure `f` — its
stdout trace and its returned object or error. The trace is appended to the
iteration's stdout only when the entry is processed, reproducing the lazy
invocation of `f` inside the write loop. -/
structure ConfigFileEntry where
  filename : String
  trace : List (List (String × Value))
  result : Except String RuntimeObject

/-- One entry of the per-pod loop (source lines 179-213): pod name, target
directory, ownership ids and config file entries. -/
structure PodSpec where
  name : String
  directory : String
  uid : Nat
  gid : Nat
  configs : List ConfigFileEntry

/-- Accumulated side effects while the write loop runs. -/
structure WriteAccum where
  dirsCreated : List (String × Nat)
  filesWritten : List WrittenFile
  stdout : List (List (String × Value))

/-- Embedding of the inner write loop (source lines 219-240): for each config
file entry, invoke the generator (its stdout trace is emitted at this point),
abort with a wrapped error if generation failed, otherwise serialize and write
the file with mode `0o400` and the pod's ownership. The filesystem itself is
modelled as infallible; I/O errors are outside the model. -/
def writeFiles (pod : PodSpec) : List ConfigFileEntry → WriteAccum → WriteAccum × Option String
  | [], acc => (acc, none)
  | cf :: rest, acc =>
      let acc1 : WriteAccum := { acc with stdout := acc.stdout ++ cf.trace }
      match cf.result with
      | Except.error e =>
          (acc1, some ("error generating configuration " ++ cf.filename ++ " for "
            ++ pod.name ++ ": " ++ e))
      | Except.ok obj =>
          let acc2 : WriteAccum :=
            { acc1 with filesWritten := acc1.filesWritten ++
                [{ directory := pod.directory, filename := cf.filename,
                   content := serializeObject obj, mode := 0o400,
                   uid := pod.uid, gid := pod.gid }] }
          writeFiles pod rest acc2

/-- Embedding of the outer pod loop (source lines 179-241): create the pod's
directory with mode `0o755`, then write its config files; the first failure
aborts the remaining pods. -/
def writePods : List PodSpec → WriteAccum → WriteAccum × Option String
  | [], acc => (acc, none)
  | pod :: rest, acc =>
      let acc1 : WriteAccum := { acc with dirsCreated := acc.dirsCreated ++ [(pod.directory, 0o755)] }
      match writeFiles pod pod.configs acc1 with
      | (acc2, some e) => (acc2, some e)
      | (acc2, none) => writePods rest acc2

/-- Result of an iteration that hit `continue`: no side effects, store
status unchanged. -/
def skippedResult (s : StoreState) : IterationResult :=
  { outcome := IterationOutcome.skipped, dirsCreated := [], filesWritten := [],
    stdout := [], configStatus := s.configStatus }

/-- Embedding of one iteration of `Run`'s loop body after an event fires
(source lines 90-252). Each of the five `ReaderGetByID` calls hits `continue`
when its resource is absent — including the two structured auth resources
(source lines 121-123 and 133-135). Store read errors other than not-found have
no counterpart in the store model. On success the `apiServerConfigs` slice
gains the optional files (authentication before authorization) only for a
non-empty payload, the two pods' directories and files are written, and the
Config Status singleton is merge-updated with `Ready = true` and the
concatenated version token (source lines 243-250). -/
def runIteration (s : StoreState) : IterationResult :=
  match s.admission, s.audit, s.structuredAuthN, s.structuredAuthZ, s.scheduler with
  | some admissionRes, some auditRes, some structuredAuthNRes, some structuredAuthZRes,
    some kubeSchedulerRes =>
      let apiServerConfigs : List ConfigFileEntry :=
        (if structuredAuthNRes.spec.Config.length > 0 then
          let r := structuredAuthenticationConfig structuredAuthNRes.spec
          [{ filename := "authentication-config.yaml", trace := r.fst,
             result := r.snd.map RuntimeObject.authentication }]
         else []) ++
        (if structuredAuthZRes.spec.Config.length > 0 then
          [{ filename := "authorization-config.yaml", trace := [],
             result := (structuredAuthorizationConfig structuredAuthZRes.spec).map
               RuntimeObject.authorization }]
         else [])
      let pods : List PodSpec :=
        [{ name := "kube-apiserver", directory := kubernetesAPIServerConfigDir,
           uid := kubernetesAPIServerRunUser, gid := kubernetesAPIServerRunGroup,
           configs :=
             [{ filename := "admission-control-config.yaml", trace := [],
                result := (admissionControlConfig admissionRes.spec).map
                  RuntimeObject.admission },
              { filename := "auditpolicy.yaml", trace := [],
                result := (auditPolicyConfig auditRes.spec).map RuntimeObject.audit }]
             ++ apiServerConfigs },
         { name := "kube-scheduler", directory := kubernetesSchedulerConfigDir,
           uid := kubernetesSchedulerRunUser, gid := kubernetesSchedulerRunGroup,
           configs :=
             [{ filename := "scheduler-config.yaml", trace := [],
                result := (schedulerConfig kubeSchedulerRes.spec).map
                  RuntimeObject.scheduler }] }]
      let res := writePods pods { dirsCreated := [], filesWritten := [], stdout := [] }
      { outcome :=
          match res.snd with
          | some e => IterationOutcome.failed e
          | none => IterationOutcome.completed
        dirsCreated := res.fst.dirsCreated
        filesWritten := res.fst.filesWritten
        stdout := res.fst.stdout
        configStatus :=
          match res.snd with
          | some _ => s.configStatus
          | none => some
              { Ready := true,
                Version := admissionRes.version ++ auditRes.version
                  ++ kubeSchedulerRes.version } }
  | _, _, _, _, _ => skippedResult s

/-! ## Concrete fixtures -/

/-- A payload accepted by the strict audit conversion. -/
def sampleAuditSpec : AuditPolicyConfigSpec :=
  ⟨[("apiVersion", Value.str "audit.k8s.io/v1"), ("kind", Value.str "Policy"),
    ("rules", Value.arr [])]⟩

/-- A minimal scheduler payload. -/
def sampleSchedulerSpec : SchedulerConfigSpec := ⟨[]⟩

/-- An audit payload with a key outside the audit policy schema. -/
def badAuditSpec : AuditPolicyConfigSpec := ⟨[("bogusField", Value.str "x")]⟩

/-- A non-empty structured-authentication payload. -/
def authNPayload : List (String × Value) := [("jwt", Value.arr [])]

/-- All five resources present; both optional payloads empty. -/
def baseState : StoreState :=
  { admission := some ⟨⟨[]⟩, "va"⟩
    audit := some ⟨sampleAuditSpec, "vd"⟩
    structuredAuthN := some ⟨⟨[]⟩, "vn"⟩
    structuredAuthZ := some ⟨⟨[]⟩, "vz"⟩
    scheduler := some ⟨sampleSchedulerSpec, "vk"⟩
    configStatus := none }

/-- All five resources present; non-empty structured-authentication payload. -/
def fullState : StoreState :=
  { baseState with structuredAuthN := some ⟨⟨authNPayload⟩, "vn"⟩ }

/-- A scheduler payload that tries to choose its own kubeconfig path. -/
def c8SchedulerSpec : SchedulerConfigSpec :=
  ⟨[("clientConnection", Value.obj [("kubeconfig", Value.str "/user/supplied/path")])]⟩

/-- A scheduler payload with a key outside the scheduler schema. -/
def c5SchedulerSpec : SchedulerConfigSpec := ⟨[("bogusField", Value.str "x")]⟩

/-- An audit payload whose TypeMeta pair is not the audit policy discriminator. -/
def c4AuditSpec : AuditPolicyConfigSpec :=
  ⟨[("apiVersion", Value.str "bogus/v1"), ("kind", Value.str "BogusKind"),
    ("rules", Value.arr [])]⟩

/-- A two-plugin admission payload in deliberately non-alphabetical order. -/
def c9AdmissionSpec : AdmissionControlConfigSpec :=
  ⟨[⟨"PluginB", [("b", Value.num 2)]⟩, ⟨"PluginA", []⟩]⟩

/-! ## Helper lemmas -/

/-- Non-strict conversion never fails: with `returnUnknownFields = false` the
guard is `false && _`. -/
theorem schedulerConfig_ok (k : SchedulerConfigSpec) :
    ∃ cfg, schedulerConfig k = Except.ok cfg := by
  unfold schedulerConfig fromUnstructuredWithValidation
  simp

/-- Strict conversion succeeds only when every payload key is in the schema,
and then it returns the payload unchanged. -/
theorem fromUnstructured_strict_ok (known : List String) (payload F : List (String × Value))
    (h : fromUnstructuredWithValidation known payload true = Except.ok F) : F = payload := by
  unfold fromUnstructuredWithValidation at h
  split at h
  · exact absurd h (by simp)
  · rename_i hcond
    simp only [Except.ok.injEq] at h
    subst h
    refine List.filter_eq_self.mpr fun kv hkv => ?_
    by_contra hk
    apply hcond
    simp only [Bool.true_and, List.any_eq_true]
    exact ⟨kv, hkv, by simpa using hk⟩

/-- Strict conversion fails as soon as one payload key is outside the schema. -/
theorem fromUnstructured_strict_error (known : List String) (payload : List (String × Value))
    (kv : String × Value) (hmem : kv ∈ payload) (hout : kv.fst ∉ known) :
    fromUnstructuredWithValidation known payload true = Except.error "unknown field" := by
  have hany : (payload.any fun p => !(known.contains p.fst)) = true :=
    List.any_eq_true.mpr ⟨kv, hmem, by simpa using hout⟩
  unfold fromUnstructuredWithValidation
  rw [hany]
  rfl

/-- All five resources present, audit payload outside the schema, a prior
status in the store. -/
def c2State : StoreState :=
  { baseState with audit := some ⟨badAuditSpec, "vd"⟩, configStatus := some ⟨true, "old"⟩ }

/-- Like `baseState` but with a different audit version token and different
optional-resource content. -/
def c3AltState : StoreState :=
  { baseState with audit := some ⟨sampleAuditSpec, "vd2"⟩,
                   structuredAuthZ := some ⟨⟨[("authorizers", Value.arr [])]⟩, "vz9"⟩ }

/-- The admission document produced from an empty plugin list. -/
def c10AdmissionCfg : AdmissionConfiguration :=
  { apiVersion := "apiserver.config.k8s.io/v1", kind := "AdmissionConfiguration",
    plugins := some [] }

/-- The admission file as rendered from an empty plugin list. -/
def c6SampleFile : WrittenFile :=
  { directory := kubernetesAPIServerConfigDir
    filename := "admission-control-config.yaml"
    content := serializeObject (RuntimeObject.admission
      { apiVersion := "apiserver.config.k8s.io/v1", kind := "AdmissionConfiguration",
        plugins := some [] })
    mode := 0o400
    uid := kubernetesAPIServerRunUser
    gid := kubernetesAPIServerRunGroup }

/-- Middle-factor cancellation for string concatenation. -/
theorem append_cancel_mid (a b c b' : String) (h : a ++ b ++ c = a ++ b' ++ c) : b = b' := by
  apply String.ext
  have h2 := congrArg String.data h
  simp only [String.data_append, List.append_cancel_left_eq, List.append_cancel_right_eq] at h2
  exact h2

/-- When all five resources are present but the audit conversion fails, the
iteration fails with the wrapped audit error; exactly one file — the
admission-control file, generated and written before the audit converter ran —
exists in the API-server directory, and the status singleton is untouched. -/
theorem runIteration_audit_error (s : StoreState)
    (aRes : Resource AdmissionControlConfigSpec) (dRes : Resource AuditPolicyConfigSpec)
    (nRes : Resource StructuredAuthenticationConfigSpec)
    (zRes : Resource StructuredAuthorizationConfigSpec) (kRes : Resource SchedulerConfigSpec)
    (e : String)
    (hA : s.admission = some aRes) (hD : s.audit = some dRes)
    (hN : s.structuredAuthN = some nRes) (hZ : s.structuredAuthZ = some zRes)
    (hK : s.scheduler = some kRes)
    (hfail : auditPolicyConfig dRes.spec = Except.error e) :
    (runIteration s).outcome = IterationOutcome.failed
        ("error generating configuration auditpolicy.yaml for kube-apiserver: " ++ e)
    ∧ (runIteration s).filesWritten.map (fun f => f.filename)
        = ["admission-control-config.yaml"]
    ∧ (runIteration s).filesWritten.map (fun f => f.directory)
        = [kubernetesAPIServerConfigDir]
    ∧ (runIteration s).configStatus = s.configStatus := by
  simp only [runIteration, hA, hD, hN, hZ, hK, writePods, writeFiles, List.cons_append,
    List.nil_append, admissionControlConfig, Except.map, hfail, List.map_cons, List.map_nil]
  refine ⟨?_, ?_, ?_, ?_⟩ <;> trivial

/-- A completed iteration publishes Ready and the fixed-order concatenation of
the three required resources' version tokens. -/
theorem runIteration_completed_status (s : StoreState)
    (aRes : Resource AdmissionControlConfigSpec) (dRes : Resource AuditPolicyConfigSpec)
    (kRes : Resource SchedulerConfigSpec)
    (hA : s.admission = some aRes) (hD : s.audit = some dRes) (hK : s.scheduler = some kRes)
    (hc : (runIteration s).outcome = IterationOutcome.completed) :
    (runIteration s).configStatus
      = some { Ready := true, Version := aRes.version ++ dRes.version ++ kRes.version } := by
  rcases hN : s.structuredAuthN with _ | nRes
  · simp only [runIteration, hA, hD, hN, hK, skippedResult] at hc
    exact absurd hc (by simp)
  rcases hZ : s.structuredAuthZ with _ | zRes
  · simp only [runIteration, hA, hD, hN, hZ, hK, skippedResult] at hc
    exact absurd hc (by simp)
  simp only [runIteration, hA, hD, hN, hZ, hK] at hc ⊢
  revert hc
  split
  · intro hc
    exact absurd hc (by simp)
  · intro _
    rfl

/-! ## Claim theorems -/

/-- C8: for every input payload accepted by the scheduler Converter, the rendered
KubeSchedulerConfiguration's client-connection kubeconfig path equals the fixed
controller-determined path, even when the payload specifies a different path. -/
theorem C8_scheduler_kubeconfig_forced (k : SchedulerConfigSpec)
    (cfg : KubeSchedulerConfiguration) (h : schedulerConfig k = Except.ok cfg) :
    cfg.clientConnection.kubeconfig = kubernetesSchedulerSecretsDir ++ "/kubeconfig" := by
  unfold schedulerConfig at h
  split at h
  · exact Except.noConfusion h
  · injection h with h
    subst h
    rfl

/-- C8 witness: at a payload that supplies its own kubeconfig path, the rendered
document still carries the fixed controller-determined path. -/
theorem C8_scheduler_kubeconfig_forced_witness :
    (KubeSchedulerConfiguration.mk "kubescheduler.config.k8s.io/v1"
        "KubeSchedulerConfiguration"
        ⟨kubernetesSchedulerSecretsDir ++ "/kubeconfig", []⟩ []).clientConnection.kubeconfig
      = kubernetesSchedulerSecretsDir ++ "/kubeconfig" :=
  C8_scheduler_kubeconfig_forced c8SchedulerSpec _ rfl

/-- C9: the plugin list of the output AdmissionConfiguration has the same length
as the input plugin list and preserves its order exactly: the i-th output entry
carries the i-th input plugin's name and its re-encoded configuration blob. -/
theorem C9_plugin_order_preserved (spec : AdmissionControlConfigSpec)
    (cfg : AdmissionConfiguration) (h : admissionControlConfig spec = Except.ok cfg) :
    ∃ ps, cfg.plugins = some ps
      ∧ ps.length = spec.Config.length
      ∧ ∀ i (h1 : i < ps.length) (h2 : i < spec.Config.length),
          (ps.get ⟨i, h1⟩).name = (spec.Config.get ⟨i, h2⟩).name
          ∧ (ps.get ⟨i, h1⟩).configuration
              = jsonEncode (Value.obj (spec.Config.get ⟨i, h2⟩).configuration) := by
  unfold admissionControlConfig at h
  injection h with h
  subst h
  refine ⟨_, rfl, by simp, ?_⟩
  intro i h1 h2
  constructor <;> simp [List.get_eq_getElem, List.getElem_map]

/-- C9 witness: the order/length/content correspondence evaluated on a concrete
two-plugin payload given in non-alphabetical order. -/
theorem C9_plugin_order_preserved_witness :
    ∃ ps, (AdmissionConfiguration.mk "apiserver.config.k8s.io/v1" "AdmissionConfiguration"
        (some [⟨"PluginB", jsonEncode (Value.obj [("b", Value.num 2)])⟩,
               ⟨"PluginA", jsonEncode (Value.obj [])⟩])).plugins = some ps
      ∧ ps.length = c9AdmissionSpec.Config.length
      ∧ ∀ i (h1 : i < ps.length) (h2 : i < c9AdmissionSpec.Config.length),
          (ps.get ⟨i, h1⟩).name = (c9AdmissionSpec.Config.get ⟨i, h2⟩).name
          ∧ (ps.get ⟨i, h1⟩).configuration
              = jsonEncode (Value.obj (c9AdmissionSpec.Config.get ⟨i, h2⟩).configuration) :=
  C9_plugin_order_preserved c9AdmissionSpec _ rfl

/-- C5 counterexample: the key "bogusField" is outside the scheduler target
schema, yet the scheduler Converter succeeds and silently drops it instead of
failing with a schema error, refuting strictness for every configuration kind. -/
theorem C5_counterexample :
    "bogusField" ∉ kubeSchedulerKnownFields
    ∧ schedulerConfig c5SchedulerSpec = Except.ok
        { apiVersion := "kubescheduler.config.k8s.io/v1"
          kind := "KubeSchedulerConfiguration"
          clientConnection := { kubeconfig := kubernetesSchedulerSecretsDir ++ "/kubeconfig",
                                fields := [] }
          fields := [] } :=
  ⟨by decide, rfl⟩

/-- C5 amended: conversion is strict for the audit, structured-authentication
and structured-authorization kinds — a payload key outside the target schema is
a synthesis-time schema error — but the scheduler conversion is non-strict and
never raises a schema error: unknown payload fields are silently dropped. -/
theorem C5_conversion_strictness :
    (∀ d : AuditPolicyConfigSpec, (∃ kv ∈ d.Config, kv.fst ∉ auditPolicyKnownFields) →
      ∃ e, auditPolicyConfig d = Except.error e)
    ∧ (∀ n : StructuredAuthenticationConfigSpec,
        (∃ kv ∈ n.Config, kv.fst ∉ authenticationKnownFields) →
      ∃ e, (structuredAuthenticationConfig n).snd = Except.error e)
    ∧ (∀ z : StructuredAuthorizationConfigSpec,
        (∃ kv ∈ z.Config, kv.fst ∉ authorizationKnownFields) →
      ∃ e, structuredAuthorizationConfig z = Except.error e)
    ∧ (∀ k : SchedulerConfigSpec, ∃ cfg, schedulerConfig k = Except.ok cfg) := by
  refine ⟨?_, ?_, ?_, schedulerConfig_ok⟩
  · rintro d ⟨kv, hmem, hout⟩
    refine ⟨"error unmarshaling audit policy configuration: " ++ "unknown field", ?_⟩
    unfold auditPolicyConfig
    rw [fromUnstructured_strict_error _ _ kv hmem hout]
  · rintro n ⟨kv, hmem, hout⟩
    refine ⟨"error unmarshaling structured authentication configuration: "
      ++ "unknown field", ?_⟩
    unfold structuredAuthenticationConfig
    rw [fromUnstructured_strict_error _ _ kv hmem hout]
  · rintro z ⟨kv, hmem, hout⟩
    refine ⟨"error unmarshaling structured authorization configuration: "
      ++ "unknown field", ?_⟩
    unfold structuredAuthorizationConfig
    rw [fromUnstructured_strict_error _ _ kv hmem hout]

/-- C5 witness: the strict audit conversion rejects a concrete payload holding a
key outside the audit schema. -/
theorem C5_conversion_strictness_witness :
    ∃ e, auditPolicyConfig badAuditSpec = Except.error e :=
  C5_conversion_strictness.1 badAuditSpec
    ⟨("bogusField", Value.str "x"), List.mem_cons_self _ _, by decide⟩

/-- C4 counterexample: the audit Converter does not stamp the discriminator
pair; a payload carrying a wrong apiVersion/kind flows through unchanged into
the rendered document. -/
theorem C4_counterexample :
    auditPolicyConfig c4AuditSpec = Except.ok
      { apiVersion := "bogus/v1", kind := "BogusKind", fields := [("rules", Value.arr [])] }
    ∧ "bogus/v1" ≠ "audit.k8s.io/v1" :=
  ⟨rfl, by decide⟩

/-- C4 amended: the admission, structured-authentication,
structured-authorization and scheduler Converters stamp the discriminator pair
themselves regardless of the payload; the audit Converter does not — its output
carries whatever the payload supplied for apiVersion/kind (empty when absent). -/
theorem C4_discriminator_stamping
    (a : AdmissionControlConfigSpec) (d : AuditPolicyConfigSpec)
    (n : StructuredAuthenticationConfigSpec) (z : StructuredAuthorizationConfigSpec)
    (k : SchedulerConfigSpec)
    (aCfg : AdmissionConfiguration) (dCfg : Policy) (nCfg : AuthenticationConfiguration)
    (zCfg : AuthorizationConfiguration) (kCfg : KubeSchedulerConfiguration)
    (ha : admissionControlConfig a = Except.ok aCfg)
    (hd : auditPolicyConfig d = Except.ok dCfg)
    (hn : (structuredAuthenticationConfig n).snd = Except.ok nCfg)
    (hz : structuredAuthorizationConfig z = Except.ok zCfg)
    (hk : schedulerConfig k = Except.ok kCfg) :
    (aCfg.apiVersion = "apiserver.config.k8s.io/v1"
      ∧ aCfg.kind = "AdmissionConfiguration")
    ∧ (nCfg.apiVersion = "apiserver.config.k8s.io/v1beta1"
      ∧ nCfg.kind = "AuthenticationConfiguration")
    ∧ (zCfg.apiVersion = "apiserver.config.k8s.io/v1beta1"
      ∧ zCfg.kind = "AuthorizationConfiguration")
    ∧ (kCfg.apiVersion = "kubescheduler.config.k8s.io/v1"
      ∧ kCfg.kind = "KubeSchedulerConfiguration")
    ∧ (dCfg.apiVersion = getString d.Config "apiVersion"
      ∧ dCfg.kind = getString d.Config "kind") := by
  refine ⟨?_, ?_, ?_, ?_, ?_⟩
  · unfold admissionControlConfig at ha
    injection ha with ha
    subst ha
    exact ⟨rfl, rfl⟩
  · unfold structuredAuthenticationConfig at hn
    dsimp only at hn
    split at hn
    · exact Except.noConfusion hn
    · injection hn with hn
      subst hn
      exact ⟨rfl, rfl⟩
  · unfold structuredAuthorizationConfig at hz
    split at hz
    · exact Except.noConfusion hz
    · injection hz with hz
      subst hz
      exact ⟨rfl, rfl⟩
  · unfold schedulerConfig at hk
    split at hk
    · exact Except.noConfusion hk
    · injection hk with hk
      subst hk
      exact ⟨rfl, rfl⟩
  · unfold auditPolicyConfig at hd
    split at hd
    · exact Except.noConfusion hd
    · rename_i fields heq
      have hfields := fromUnstructured_strict_ok _ _ _ heq
      subst hfields
      injection hd with hd
      subst hd
      exact ⟨rfl, rfl⟩

/-- C1: contrary to the claim, when the required resources are present but an
optional resource (structured authentication or structured authorization) is
absent, the iteration does not complete: the not-found branch (source lines
121-123 and 133-135) takes `continue`, so no directory is created, no file is
written — not even the required ones — and the status is untouched. -/
theorem C1_optional_absent_skips_iteration :
    runIteration { baseState with structuredAuthN := none }
      = { outcome := IterationOutcome.skipped, dirsCreated := [], filesWritten := [],
          stdout := [], configStatus := none }
    ∧ runIteration { baseState with structuredAuthZ := none }
      = { outcome := IterationOutcome.skipped, dirsCreated := [], filesWritten := [],
          stdout := [], configStatus := none }
    ∧ (runIteration baseState).filesWritten.map (fun f => f.filename)
      = ["admission-control-config.yaml", "auditpolicy.yaml", "scheduler-config.yaml"] :=
  ⟨rfl, rfl, rfl⟩

/-- C2 counterexample: a concrete iteration whose audit payload fails schema
conversion aborts with the schema error and keeps the prior status, but the
claim's "no file is written to either directory" part is false: the
admission-control file was generated and written before the audit converter
ran. -/
theorem C2_counterexample :
    (runIteration c2State).outcome = IterationOutcome.failed
      ("error generating configuration auditpolicy.yaml for kube-apiserver: "
        ++ "error unmarshaling audit policy configuration: unknown field")
    ∧ (runIteration c2State).filesWritten ≠ [] :=
  ⟨rfl, by decide⟩

/-- C2 amended: when the audit payload fails schema conversion the iteration
aborts with the schema error and the Config Status retains its prior value, but
one file has already been written during the iteration: the admission-control
file in the API-server directory (written before the audit converter ran); no
other file — in particular none in the scheduler directory — is written. -/
theorem C2_audit_failure_aborts_after_admission_write
    (s : StoreState) (aRes : Resource AdmissionControlConfigSpec)
    (dRes : Resource AuditPolicyConfigSpec) (nRes : Resource StructuredAuthenticationConfigSpec)
    (zRes : Resource StructuredAuthorizationConfigSpec) (kRes : Resource SchedulerConfigSpec)
    (e : String)
    (hA : s.admission = some aRes) (hD : s.audit = some dRes)
    (hN : s.structuredAuthN = some nRes) (hZ : s.structuredAuthZ = some zRes)
    (hK : s.scheduler = some kRes)
    (hfail : auditPolicyConfig dRes.spec = Except.error e) :
    (∃ m, (runIteration s).outcome = IterationOutcome.failed m)
    ∧ (runIteration s).filesWritten.map (fun f => f.filename)
        = ["admission-control-config.yaml"]
    ∧ (runIteration s).filesWritten.map (fun f => f.directory)
        = [kubernetesAPIServerConfigDir]
    ∧ (runIteration s).configStatus = s.configStatus := by
  obtain ⟨h1, h2, h3, h4⟩ :=
    runIteration_audit_error s aRes dRes nRes zRes kRes e hA hD hN hZ hK hfail
  exact ⟨⟨_, h1⟩, h2, h3, h4⟩

/-- C2 amended witness: the amended statement evaluated at the concrete failing
state. -/
theorem C2_audit_failure_witness :
    (∃ m, (runIteration c2State).outcome = IterationOutcome.failed m)
    ∧ (runIteration c2State).filesWritten.map (fun f => f.filename)
        = ["admission-control-config.yaml"]
    ∧ (runIteration c2State).filesWritten.map (fun f => f.directory)
        = [kubernetesAPIServerConfigDir]
    ∧ (runIteration c2State).configStatus = c2State.configStatus :=
  C2_audit_failure_aborts_after_admission_write c2State _ _ _ _ _
    ("error unmarshaling audit policy configuration: " ++ "unknown field")
    rfl rfl rfl rfl rfl rfl

/-- C3: after a successful render the published Version is the concatenation,
in the fixed order admission-audit-scheduler, of the three required resources'
version tokens; a state differing only in the audit version token publishes a
different Version, and a state agreeing on the three required resources
publishes the same Version whatever its optional resources hold. -/
theorem C3_version_concatenation
    (s t : StoreState)
    (aRes : Resource AdmissionControlConfigSpec) (dRes dResT : Resource AuditPolicyConfigSpec)
    (kRes : Resource SchedulerConfigSpec)
    (hA : s.admission = some aRes) (hD : s.audit = some dRes) (hK : s.scheduler = some kRes)
    (hc : (runIteration s).outcome = IterationOutcome.completed)
    (hAT : t.admission = some aRes) (hDT : t.audit = some dResT)
    (hKT : t.scheduler = some kRes)
    (hcT : (runIteration t).outcome = IterationOutcome.completed) :
    ((runIteration s).configStatus
        = some { Ready := true, Version := aRes.version ++ dRes.version ++ kRes.version })
    ∧ (dResT.version ≠ dRes.version →
        (runIteration t).configStatus.map ConfigStatusSpec.Version
          ≠ (runIteration s).configStatus.map ConfigStatusSpec.Version)
    ∧ (dResT.version = dRes.version →
        (runIteration t).configStatus.map ConfigStatusSpec.Version
          = (runIteration s).configStatus.map ConfigStatusSpec.Version) := by
  have hs := runIteration_completed_status s aRes dRes kRes hA hD hK hc
  have ht := runIteration_completed_status t aRes dResT kRes hAT hDT hKT hcT
  refine ⟨hs, ?_, ?_⟩
  · intro hne heq
    rw [hs, ht] at heq
    simp only [Option.map_some', Option.some.injEq] at heq
    exact hne (append_cancel_mid _ _ _ _ heq)
  · intro heqv
    rw [hs, ht, heqv]

/-- C3 witness: concrete states sharing the required admission and scheduler
resources; the base state publishes the concatenated Version, and the state
with only a changed audit version token publishes a different Version. -/
theorem C3_version_concatenation_witness :
    ((runIteration baseState).configStatus
        = some { Ready := true, Version := "va" ++ "vd" ++ "vk" })
    ∧ (runIteration c3AltState).configStatus.map ConfigStatusSpec.Version
        ≠ (runIteration baseState).configStatus.map ConfigStatusSpec.Version :=
  ⟨(C3_version_concatenation baseState c3AltState _ _ _ _
      rfl rfl rfl rfl rfl rfl rfl rfl).1,
   (C3_version_concatenation baseState c3AltState _ _ _ _
      rfl rfl rfl rfl rfl rfl rfl rfl).2.1 (by decide)⟩

/-- C6 counterexample: the configuration directories are created with mode
0o755 — group and others get read and traverse access — refuting the claimed
owner-only directory mode; 0o755's group/other bit block is non-zero. -/
theorem C6_counterexample :
    (runIteration fullState).dirsCreated
      = [(kubernetesAPIServerConfigDir, 0o755), (kubernetesSchedulerConfigDir, 0o755)]
    ∧ (0o755 : Nat) % 64 ≠ 0 :=
  ⟨rfl, by decide⟩

/-- Files appended by the write loop all carry mode 0o400. -/
theorem writeFiles_modes (pod : PodSpec) (cfs : List ConfigFileEntry) (acc : WriteAccum)
    (hf : ∀ f ∈ acc.filesWritten, f.mode = 0o400) :
    ∀ f ∈ (writeFiles pod cfs acc).fst.filesWritten, f.mode = 0o400 := by
  induction cfs generalizing acc with
  | nil => exact hf
  | cons cf rest ih =>
      simp only [writeFiles]
      split
      · exact hf
      · apply ih
        intro f hfm
        rcases List.mem_append.mp hfm with h | h
        · exact hf f h
        · rw [List.mem_singleton.mp h]

/-- The write loop never creates directories. -/
theorem writeFiles_dirs (pod : PodSpec) (cfs : List ConfigFileEntry) (acc : WriteAccum) :
    (writeFiles pod cfs acc).fst.dirsCreated = acc.dirsCreated := by
  induction cfs generalizing acc with
  | nil => rfl
  | cons cf rest ih =>
      simp only [writeFiles]
      split
      · rfl
      · exact ih _

/-- Both pod-loop invariants: every file written carries mode 0o400 and every
directory created carries mode 0o755. -/
theorem writePods_modes (pods : List PodSpec) (acc : WriteAccum)
    (hf : ∀ f ∈ acc.filesWritten, f.mode = 0o400)
    (hd : ∀ d ∈ acc.dirsCreated, d.snd = 0o755) :
    (∀ f ∈ (writePods pods acc).fst.filesWritten, f.mode = 0o400)
    ∧ (∀ d ∈ (writePods pods acc).fst.dirsCreated, d.snd = 0o755) := by
  induction pods generalizing acc with
  | nil => exact ⟨hf, hd⟩
  | cons pod rest ih =>
      simp only [writePods]
      have hd1 : ∀ d ∈ (acc.dirsCreated ++ [(pod.directory, 0o755)]), d.snd = 0o755 := by
        intro d hdm
        rcases List.mem_append.mp hdm with h | h
        · exact hd d h
        · rw [List.mem_singleton.mp h]
      split
      · rename_i acc2 e hw
        constructor
        · have hmod := writeFiles_modes pod pod.configs
            { acc with dirsCreated := acc.dirsCreated ++ [(pod.directory, 0o755)] } hf
          rw [hw] at hmod
          exact hmod
        · have hdir := writeFiles_dirs pod pod.configs
            { acc with dirsCreated := acc.dirsCreated ++ [(pod.directory, 0o755)] }
          rw [hw] at hdir
          intro d hdm
          rw [hdir] at hdm
          exact hd1 d hdm
      · rename_i acc2 hw
        apply ih
        · have hmod := writeFiles_modes pod pod.configs
            { acc with dirsCreated := acc.dirsCreated ++ [(pod.directory, 0o755)] } hf
          rw [hw] at hmod
          exact hmod
        · have hdir := writeFiles_dirs pod pod.configs
            { acc with dirsCreated := acc.dirsCreated ++ [(pod.directory, 0o755)] }
          rw [hw] at hdir
          intro d hdm
          rw [hdir] at hdm
          exact hd1 d hdm

/-- C6 amended: every rendered configuration file is created with mode 0o400
(owner read-only), and every configuration directory is created with mode
0o755 — owner read/write/traverse but with group/other read and traverse
access, not owner-only. -/
theorem C6_file_and_directory_modes (s : StoreState) :
    (∀ f ∈ (runIteration s).filesWritten, f.mode = 0o400)
    ∧ (∀ d ∈ (runIteration s).dirsCreated, d.snd = 0o755) := by
  unfold runIteration
  split
  · exact writePods_modes _ { dirsCreated := [], filesWritten := [], stdout := [] }
      (by intro f hfm; exact absurd hfm (List.not_mem_nil f))
      (by intro d hdm; exact absurd hdm (List.not_mem_nil d))
  all_goals exact ⟨fun f hfm => absurd hfm (by simp [skippedResult]),
    fun d hdm => absurd hdm (by simp [skippedResult])⟩

/-- C6 amended witness: the amended mode policy instantiated at a concrete
rendered file and a concrete created directory. -/
theorem C6_file_and_directory_modes_witness :
    c6SampleFile.mode = 0o400
    ∧ ((kubernetesAPIServerConfigDir, (0o755 : Nat))).snd = 0o755 :=
  ⟨(C6_file_and_directory_modes fullState).1 c6SampleFile (by decide),
   (C6_file_and_directory_modes fullState).2 (kubernetesAPIServerConfigDir, 0o755) (by decide)⟩

/-- C7: contrary to the claim, the structured-authentication Converter is not
observationally pure: it prints the (sensitive) payload to standard output
(the `fmt.Println(spec.Config)` at source line 300), so a channel other than
the filesystem and the status update receives the payload during the render
cycle. -/
theorem C7_payload_printed_to_stdout :
    (structuredAuthenticationConfig ⟨authNPayload⟩).fst = [authNPayload]
    ∧ (runIteration fullState).stdout = [authNPayload]
    ∧ authNPayload ≠ [] :=
  ⟨rfl, rfl, by simp [authNPayload]⟩

/-- C10: the admission Converter succeeds on an empty plugin list with a
present (non-nil) empty plugins slice that serializes to an empty array, and
the admission-control file is rendered even though its payload is empty,
whereas an empty optional payload omits its file. -/
theorem C10_empty_required_payload_still_rendered
    (s : StoreState) (va vn vz : String) (dRes : Resource AuditPolicyConfigSpec)
    (kRes : Resource SchedulerConfigSpec)
    (hA : s.admission = some ⟨⟨[]⟩, va⟩) (hD : s.audit = some dRes)
    (hN : s.structuredAuthN = some ⟨⟨[]⟩, vn⟩) (hZ : s.structuredAuthZ = some ⟨⟨[]⟩, vz⟩)
    (hK : s.scheduler = some kRes)
    (hc : (runIteration s).outcome = IterationOutcome.completed) :
    (admissionControlConfig ⟨[]⟩ = Except.ok c10AdmissionCfg)
    ∧ (admissionToValue c10AdmissionCfg
        = Value.obj [("apiVersion", Value.str "apiserver.config.k8s.io/v1"),
                     ("kind", Value.str "AdmissionConfiguration"),
                     ("plugins", Value.arr [])])
    ∧ "admission-control-config.yaml"
        ∈ (runIteration s).filesWritten.map (fun f => f.filename)
    ∧ "authentication-config.yaml"
        ∉ (runIteration s).filesWritten.map (fun f => f.filename) := by
  refine ⟨rfl, rfl, ?_, ?_⟩ <;>
  · rcases haud : auditPolicyConfig dRes.spec with e | dCfg
    · obtain ⟨h1, _, _, _⟩ := runIteration_audit_error s _ _ _ _ _ e hA hD hN hZ hK haud
      rw [h1] at hc
      exact absurd hc (by simp)
    · obtain ⟨kCfg, hkc⟩ := schedulerConfig_ok kRes.spec
      simp only [runIteration, hA, hD, hN, hZ, hK, writePods, writeFiles, List.cons_append,
        List.nil_append, List.length_nil, gt_iff_lt, Nat.lt_irrefl, if_false,
        admissionControlConfig, Except.map, haud, hkc, List.map_cons, List.map_nil]
      simp

/-- C10 witness: the statement evaluated at the concrete base state whose
admission payload and optional payloads are all empty. -/
theorem C10_empty_required_payload_witness :
    (admissionControlConfig ⟨[]⟩ = Except.ok c10AdmissionCfg)
    ∧ (admissionToValue c10AdmissionCfg
        = Value.obj [("apiVersion", Value.str "apiserver.config.k8s.io/v1"),
                     ("kind", Value.str "AdmissionConfiguration"),
                     ("plugins", Value.arr [])])
    ∧ "admission-control-config.yaml"
        ∈ (runIteration baseState).filesWritten.map (fun f => f.filename)
    ∧ "authentication-config.yaml"
        ∉ (runIteration baseState).filesWritten.map (fun f => f.filename) :=
  C10_empty_required_payload_still_rendered baseState "va" "vn" "vz" _ _
    rfl rfl rfl rfl rfl rfl

/-- C4 amended witness: the discriminator behavior of all five Converters
evaluated on concrete payloads; the audit document carries the payload-supplied
pair. -/
theorem C4_discriminator_stamping_witness :
    ((AdmissionConfiguration.mk "apiserver.config.k8s.io/v1" "AdmissionConfiguration"
        (some [])).apiVersion = "apiserver.config.k8s.io/v1"
      ∧ (AdmissionConfiguration.mk "apiserver.config.k8s.io/v1" "AdmissionConfiguration"
        (some [])).kind = "AdmissionConfiguration")
    ∧ ((AuthenticationConfiguration.mk "apiserver.config.k8s.io/v1beta1"
        "AuthenticationConfiguration" authNPayload).apiVersion = "apiserver.config.k8s.io/v1beta1"
      ∧ (AuthenticationConfiguration.mk "apiserver.config.k8s.io/v1beta1"
        "AuthenticationConfiguration" authNPayload).kind = "AuthenticationConfiguration")
    ∧ ((AuthorizationConfiguration.mk "apiserver.config.k8s.io/v1beta1"
        "AuthorizationConfiguration" [("authorizers", Value.arr [])]).apiVersion
          = "apiserver.config.k8s.io/v1beta1"
      ∧ (AuthorizationConfiguration.mk "apiserver.config.k8s.io/v1beta1"
        "AuthorizationConfiguration" [("authorizers", Value.arr [])]).kind
          = "AuthorizationConfiguration")
    ∧ ((KubeSchedulerConfiguration.mk "kubescheduler.config.k8s.io/v1"
        "KubeSchedulerConfiguration" ⟨kubernetesSchedulerSecretsDir ++ "/kubeconfig", []⟩
        []).apiVersion = "kubescheduler.config.k8s.io/v1"
      ∧ (KubeSchedulerConfiguration.mk "kubescheduler.config.k8s.io/v1"
        "KubeSchedulerConfiguration" ⟨kubernetesSchedulerSecretsDir ++ "/kubeconfig", []⟩
        []).kind = "KubeSchedulerConfiguration")
    ∧ ((Policy.mk "audit.k8s.io/v1" "Policy" [("rules", Value.arr [])]).apiVersion
        = getString sampleAuditSpec.Config "apiVersion"
      ∧ (Policy.mk "audit.k8s.io/v1" "Policy" [("rules", Value.arr [])]).kind
        = getString sampleAuditSpec.Config "kind") :=
  C4_discriminator_stamping ⟨[]⟩ sampleAuditSpec ⟨authNPayload⟩
    ⟨[("authorizers", Value.arr [])]⟩ sampleSchedulerSpec
    _ _ _ _ _ rfl rfl rfl rfl rfl

end K8s
